import Mathlib

/-!
# Verification of the turbopuffer search-benchmark-game drivers

Shallow embedding of the two Rust binaries
`src/engines/turbopuffer/src/bin/build_index.rs` (ingestion pipeline) and
`src/engines/turbopuffer/src/bin/do_query.rs` (query pipeline), together with
theorems settling the specification claims about them.
-/

set_option autoImplicit false

namespace SearchBenchmarkGame

/-! ## Constants (build_index.rs lines 15-16) -/

def BATCH_SIZE : Nat := 10000

def MAX_CONCURRENCY : Nat := 32

/-! ## JSON values

Model of `serde_json::Value`: the ingestion loop parses each input line with
`serde_json::from_str::<serde_json::Value>`, which accepts every syntactically
valid JSON document of any shape. -/

inductive Json where
  | null
  | bool (b : Bool)
  | num (n : Int)
  | str (s : String)
  | arr (elems : List Json)
  | obj (fields : List (String × Json))

/-! ## Ingestion batching loop (build_index.rs lines 28-50)

The stdin loop: blank lines (`line.trim().is_empty()`) are skipped; each other
line is parsed (`serde_json::from_str(&line)?`, a parse failure aborts the run
via `?`); the parsed document is pushed onto `batch`; when
`batch.len() >= BATCH_SIZE` the batch is handed to the upload scheduler
(`join_set.spawn(write_batch(mem::take(&mut batch)))`) and the batch restarts
empty.  After the loop (lines 52-54) the remaining `batch` is never spawned:
the returned pair is (batches handed to the scheduler, leftover batch).
The parser is a parameter standing for `serde_json::from_str::<Value>`;
`Except.error line` models the `?`-abort on the first unparsable line. -/

/-- Models Rust `line.trim().is_empty()`: true exactly when every character of
the line is whitespace. -/
def isBlank (line : String) : Bool := line.data.all Char.isWhitespace

def ingestLoop (parse : String → Option Json) (B : Nat) (out : List (List Json))
    (batch : List Json) : List String → Except String (List (List Json) × List Json)
  | [] => .ok (out, batch)
  | line :: rest =>
    if isBlank line then
      ingestLoop parse B out batch rest
    else
      match parse line with
      | none => .error line
      | some doc =>
        let batch2 := batch ++ [doc]
        if B ≤ batch2.length then
          ingestLoop parse B (out ++ [batch2]) [] rest
        else
          ingestLoop parse B out batch2 rest

def ingest (parse : String → Option Json) (B : Nat) (lines : List String) :
    Except String (List (List Json) × List Json) :=
  ingestLoop parse B [] [] lines

/-- The sequence of documents the loop parses: every non-blank line, in input
order, through the parser. -/
def parsedDocs (parse : String → Option Json) (lines : List String) : List Json :=
  (lines.filter (fun l => !isBlank l)).filterMap parse

/-- A concrete parser oracle: each line is taken as a JSON string literal. -/
def parseAsStr : String → Option Json := fun l => some (Json.str l)

/-- C1: claimed — with N non-blank input documents the scheduler receives
ceil(N/B) batches, including a flushed partial trailing batch, and no document
is dropped.  The code never flushes the trailing partial batch: after the stdin
loop, `main` goes straight to `join_set.join_all()` without spawning the
residual `batch`.  At the failing input (a single document, BATCH_SIZE =
10000), the loop hands 0 batches to the scheduler while ceil(1/10000) = 1, and
the lone document stays in the never-uploaded leftover batch. -/
theorem C1_trailing_batch_dropped :
    ingest parseAsStr BATCH_SIZE ["doc"] = .ok ([], [Json.str "doc"]) ∧
    (1 + BATCH_SIZE - 1) / BATCH_SIZE = 1 ∧
    ([] : List (List Json)).length ≠ (1 + BATCH_SIZE - 1) / BATCH_SIZE := by
  refine ⟨rfl, rfl, ?_⟩
  decide

def isOkE {ε α : Type} : Except ε α → Bool
  | .ok _ => true
  | .error _ => false

lemma ingestLoop_join (parse : String → Option Json) (B : Nat) :
    ∀ (lines : List String) (out : List (List Json)) (batch : List Json)
      (out2 : List (List Json)) (batch2 : List Json),
      ingestLoop parse B out batch lines = .ok (out2, batch2) →
      out2.flatten ++ batch2 = out.flatten ++ batch ++ parsedDocs parse lines := by
  intro lines
  induction lines with
  | nil =>
    intro out batch out2 batch2 h
    simp only [ingestLoop, Except.ok.injEq, Prod.mk.injEq] at h
    obtain ⟨h1, h2⟩ := h
    subst h1; subst h2
    simp [parsedDocs]
  | cons line rest ih =>
    intro out batch out2 batch2 h
    simp only [ingestLoop] at h
    cases hb : isBlank line with
    | true =>
      rw [hb] at h
      simp only [if_pos] at h
      rw [ih out batch out2 batch2 h]
      simp [parsedDocs, List.filter_cons, hb]
    | false =>
      rw [hb] at h
      simp only [Bool.false_eq_true, if_false] at h
      cases hp : parse line with
      | none => rw [hp] at h; exact absurd h (by simp)
      | some doc =>
        rw [hp] at h
        simp only [] at h
        by_cases hB : B ≤ (batch ++ [doc]).length
        · rw [if_pos hB] at h
          rw [ih (out ++ [batch ++ [doc]]) [] out2 batch2 h]
          simp [parsedDocs, List.filter_cons, hb, hp]
        · rw [if_neg hB] at h
          rw [ih out (batch ++ [doc]) out2 batch2 h]
          simp [parsedDocs, List.filter_cons, hb, hp]

lemma ingestLoop_isOk (parse : String → Option Json) (B : Nat) :
    ∀ (lines : List String) (out : List (List Json)) (batch : List Json),
      isOkE (ingestLoop parse B out batch lines) =
        lines.all (fun l => isBlank l || (parse l).isSome) := by
  intro lines
  induction lines with
  | nil => intro out batch; simp [ingestLoop, isOkE]
  | cons line rest ih =>
    intro out batch
    simp only [ingestLoop]
    cases hb : isBlank line with
    | true =>
      simp only [if_pos]
      simp [ih, hb]
    | false =>
      simp only [Bool.false_eq_true, if_false]
      cases hp : parse line with
      | none => simp [isOkE, hb, hp]
      | some doc =>
        simp only []
        by_cases hB : B ≤ (batch ++ [doc]).length
        · rw [if_pos hB]; simp [ih, hb, hp]
        · rw [if_neg hB]; simp [ih, hb, hp]

/-- C10: the ingestion pipeline accepts every line the JSON parser accepts,
whatever the shape of the parsed value, and forwards the parsed values
verbatim and in order into the dispatched batches plus the leftover batch;
the run aborts exactly when some non-blank line fails to parse, so only a
JSON syntax error is a fatal input-format error, never a wrong document
shape. -/
theorem C10_any_json_accepted_verbatim (parse : String → Option Json) (B : Nat)
    (lines : List String) :
    isOkE (ingest parse B lines) =
      lines.all (fun l => isBlank l || (parse l).isSome) ∧
    ∀ out batch, ingest parse B lines = .ok (out, batch) →
      out.flatten ++ batch = parsedDocs parse lines := by
  constructor
  · exact ingestLoop_isOk parse B lines [] []
  · intro out batch h
    have := ingestLoop_join parse B lines [] [] out batch h
    simpa using this

/-- A parser oracle under which the line "3" is the bare JSON number 3 — a
document without the {id, text, filter} shape. -/
def parseNum3 : String → Option Json :=
  fun l => if l = "3" then some (Json.num 3) else none

/-- Witness for C10: the wrong-shaped document `3` is accepted and lands
verbatim in the leftover batch. -/
theorem C10_any_json_accepted_verbatim_witness :
    isOkE (ingest parseNum3 BATCH_SIZE ["3"]) = true ∧
    List.flatten ([] : List (List Json)) ++ [Json.num 3] = parsedDocs parseNum3 ["3"] :=
  ⟨(C10_any_json_accepted_verbatim parseNum3 BATCH_SIZE ["3"]).1.trans (by decide),
   (C10_any_json_accepted_verbatim parseNum3 BATCH_SIZE ["3"]).2 [] [Json.num 3] rfl⟩

/-! ## Upload scheduler (build_index.rs lines 28, 44-54)

Per input line, after a batch fills it is spawned onto the `JoinSet`
(`join_set.spawn(write_batch(...))`), and then, whenever
`join_set.len() >= MAX_CONCURRENCY`, one completed task is reaped:
`let _ = join_set.join_next().await.unwrap()?;`.  The `?` applies to the
`JoinError` layer only (task panics); the reaped task's own
`Result<(), anyhow::Error>` is discarded by the `let _ =` binding.  After
end-of-input, `join_set.join_all()` awaits every remaining task and the
`for result in ... { result?; }` loop propagates the first error among them.

The model below feeds the scheduler one task per dispatched batch (iterations
of the stdin loop that do not fill a batch leave the `JoinSet` untouched, so
they are dropped).  Each task carries its eventual upload outcome; `pick`
is a completion-order oracle choosing which in-flight task `join_next`
returns (clamped into range), and the final `join_all` is modelled as
completing in dispatch order — one admissible schedule. -/

/-- The eventual result of one spawned `write_batch` task: `err code` models a
transport error or a non-success HTTP status surfaced by
`error_for_status()?`. -/
inductive UploadResult where
  | ok
  | err (code : Nat)
deriving DecidableEq

def UploadResult.isErr : UploadResult → Bool
  | .err _ => true
  | .ok => false

structure SchedState where
  /-- Tasks currently in the `JoinSet`, with their eventual outcomes. -/
  inFlight : List UploadResult
  /-- Outcomes consumed (and discarded) by `let _ = join_next()...` at the
  backpressure point. -/
  reaped : List UploadResult
deriving DecidableEq

/-- One filled batch: spawn it, then reap one completed task if the set
reached `MAX` — mirroring lines 45-49 of build_index.rs. -/
def schedStep (MAX : Nat) (pick : List UploadResult → Nat) (st : SchedState)
    (task : UploadResult) : SchedState :=
  let infl := st.inFlight ++ [task]
  if MAX ≤ infl.length then
    let j := min (pick infl) (infl.length - 1)
    { inFlight := infl.eraseIdx j, reaped := st.reaped ++ [infl.getD j .ok] }
  else
    { inFlight := infl, reaped := st.reaped }

def schedRun (MAX : Nat) (pick : List UploadResult → Nat)
    (tasks : List UploadResult) : SchedState :=
  tasks.foldl (schedStep MAX pick) ⟨[], []⟩

/-- The drain phase (lines 52-54): `join_all` awaits every remaining task and
the `for` loop propagates the first error among their results. -/
def drainResult (st : SchedState) : UploadResult :=
  match st.inFlight.filter UploadResult.isErr with
  | [] => .ok
  | e :: _ => e

/-- Completion-order oracle under which the oldest in-flight task completes
first. -/
def pickFirst : List UploadResult → Nat := fun _ => 0

set_option maxRecDepth 4000 in
/-- C2: claimed — the scheduler never silently swallows an upload error, the
first error is propagated after all in-flight uploads are awaited, and no new
batch is submitted once a failure is known.  Failing run: 33 dispatched
batches where the first batch's upload fails and completes first.  When the
32nd spawn fills the set, `join_next` reaps the failed task and
`let _ = ...` discards its error; the loop then spawns further batches and the
final drain returns success: the error is silently swallowed. -/
theorem C2_backpressure_error_swallowed :
    drainResult (schedRun MAX_CONCURRENCY pickFirst
      (.err 7 :: List.replicate 32 .ok)) = .ok ∧
    (schedRun MAX_CONCURRENCY pickFirst
      (.err 7 :: List.replicate 32 .ok)).reaped.contains (.err 7) = true := by
  decide

/-- In-flight cardinalities observed at the spawn points: for the k-th
dispatched batch, the `JoinSet` size immediately after `join_set.spawn` is the
size left by the first k-1 steps plus one. -/
def schedPeaks (MAX : Nat) (pick : List UploadResult → Nat)
    (tasks : List UploadResult) : List Nat :=
  (List.range tasks.length).map
    (fun k => (schedRun MAX pick (tasks.take k)).inFlight.length + 1)

lemma schedStep_inFlight_lt (pick : List UploadResult → Nat) (st : SchedState)
    (task : UploadResult) (h : st.inFlight.length < MAX_CONCURRENCY) :
    (schedStep MAX_CONCURRENCY pick st task).inFlight.length < MAX_CONCURRENCY := by
  unfold schedStep
  dsimp only
  split
  · rename_i hc
    have hj : min (pick (st.inFlight ++ [task])) ((st.inFlight ++ [task]).length - 1) <
        (st.inFlight ++ [task]).length := by
      have : 0 < (st.inFlight ++ [task]).length := by simp
      omega
    rw [List.length_eraseIdx_of_lt hj]
    simp only [List.length_append, List.length_cons, List.length_nil] at hc ⊢
    omega
  · rename_i hc
    simp only [List.length_append, List.length_cons, List.length_nil] at hc ⊢
    omega

lemma schedRun_inFlight_lt (pick : List UploadResult → Nat) :
    ∀ (tasks : List UploadResult) (st : SchedState),
      st.inFlight.length < MAX_CONCURRENCY →
      (tasks.foldl (schedStep MAX_CONCURRENCY pick) st).inFlight.length <
        MAX_CONCURRENCY := by
  intro tasks
  induction tasks with
  | nil => intro st h; simpa using h
  | cons t ts ih =>
    intro st h
    simpa using ih (schedStep MAX_CONCURRENCY pick st t)
      (schedStep_inFlight_lt pick st t h)

/-- C3: at every spawn point of every schedule, the number of uploads in
flight in the `JoinSet` is at most MAX_CONCURRENCY = 32, and after each
loop iteration at most 31 remain — a slot is always free before the producer
submits the next batch (the `join_next().await` at the limit blocks the
producer until a task completes). -/
theorem C3_inflight_bounded (pick : List UploadResult → Nat)
    (tasks : List UploadResult) :
    (schedPeaks MAX_CONCURRENCY pick tasks).all
      (fun n => n ≤ MAX_CONCURRENCY) = true ∧
    (schedRun MAX_CONCURRENCY pick tasks).inFlight.length < MAX_CONCURRENCY := by
  have key : ∀ ts : List UploadResult,
      (schedRun MAX_CONCURRENCY pick ts).inFlight.length < MAX_CONCURRENCY :=
    fun ts => schedRun_inFlight_lt pick ts ⟨[], []⟩ (by simp [MAX_CONCURRENCY])
  refine ⟨?_, key tasks⟩
  rw [List.all_eq_true]
  intro n hn
  simp only [schedPeaks, List.mem_map, List.mem_range] at hn
  obtain ⟨k, _, hkn⟩ := hn
  have := key (tasks.take k)
  simp only [decide_eq_true_eq]
  omega

/-! ## Query compiler (do_query.rs lines 20-82, 100-118)

Each input line is split on tab characters and must have exactly two fields;
the command is looked up in the fixed vocabulary (lines 30-52), yielding
`(top_k, filter)`; a query containing a `+` is an intersection query (line
55); the filter list is assembled (lines 56-66) and the request body built:
`top_k == 0` gives an aggregation body, otherwise a ranked BM25 body, each
wrapping the filter list in `["And", filters]` only when it has two or more
elements. -/

/-- One `[field, op, value]` filter triple as pushed onto `filters`. -/
structure LeafFilter where
  field : String
  op : String
  value : String
deriving DecidableEq

/-- The serialized `filters` value: either a bare `[field, op, value]` triple
(the single-element case of the `match filters.as_slice()`) or
`["And", [triples...]]`. -/
inductive FilterExpr where
  | single (f : LeafFilter)
  | andAll (fs : List LeafFilter)
deriving DecidableEq

/-- Ranked request body (do_query.rs lines 100-118): `rank_by` is
`["text", "BM25", query]`, `filters` is absent when no filter applies, and
`consistency` is `{"level": "eventual"}`. -/
structure RankedBody where
  rank_by : String × String × String
  filters : Option FilterExpr
  top_k : Nat
  consistency : String
deriving DecidableEq

/-- Aggregation request body (do_query.rs lines 67-82): `aggregate_by` is
`{"count": ["Count"]}`, modelled as the pair (aggregate name, aggregate). -/
structure CountBody where
  aggregate_by : String × String
  filters : FilterExpr
  consistency : String
deriving DecidableEq

inductive Body where
  | ranked (b : RankedBody)
  | count (b : CountBody)
deriving DecidableEq

/-- The command vocabulary (do_query.rs lines 30-52): command →
(top_k, optional selectivity tag); an unsupported command maps to `none`
(printed and skipped by the loop). -/
def commandTable : String → Option (Nat × Option String)
  | "TOP_10" => some (10, none)
  | "TOP_100" => some (100, none)
  | "TOP_1000" => some (1000, none)
  | "TOP_10000" => some (10000, none)
  | "TOP_10_FILTER_80%" => some (10, some "80%")
  | "TOP_10_FILTER_20%" => some (10, some "20%")
  | "TOP_10_FILTER_5%" => some (10, some "5%")
  | "TOP_100_FILTER_80%" => some (100, some "80%")
  | "TOP_100_FILTER_20%" => some (100, some "20%")
  | "TOP_100_FILTER_5%" => some (100, some "5%")
  | "TOP_1000_FILTER_80%" => some (1000, some "80%")
  | "TOP_1000_FILTER_20%" => some (1000, some "20%")
  | "TOP_1000_FILTER_5%" => some (1000, some "5%")
  | "COUNT" => some (0, none)
  | "COUNT_FILTER_80%" => some (0, some "80%")
  | "COUNT_FILTER_20%" => some (0, some "20%")
  | "COUNT_FILTER_5%" => some (0, some "5%")
  | _ => none

/-- Line 55: `query.contains("+")` — the intersection-query heuristic. -/
def queryIsIntersection (query : String) : Bool := query.data.contains '+'

/-- Lines 30-118 up to building the body: `none` means the command is
unsupported and the line is skipped. -/
def compile (command query : String) : Option Body :=
  match commandTable command with
  | none => none
  | some (top_k, filter) =>
    let inter := queryIsIntersection query
    let fs1 : List LeafFilter :=
      (match filter with
       | some f => [⟨"filter", "Contains", f⟩]
       | none => []) ++
      (if inter then [⟨"text", "ContainsAllTokens", query⟩] else [])
    if top_k = 0 then
      let fs2 := fs1 ++ (if inter then [] else [⟨"text", "ContainsAnyToken", query⟩])
      let fe := match fs2 with
        | [f] => FilterExpr.single f
        | fs => FilterExpr.andAll fs
      some (.count ⟨("count", "Count"), fe, "eventual"⟩)
    else
      let fe : Option FilterExpr := match fs1 with
        | [] => none
        | [f] => some (.single f)
        | fs => some (.andAll fs)
      some (.ranked ⟨("text", "BM25", query), fe, top_k, "eventual"⟩)

/-- The fallback "any token matches" filter pushed at do_query.rs line 65. -/
def isFallbackLeaf (f : LeafFilter) : Bool :=
  f.field == "text" && f.op == "ContainsAnyToken"

def FilterExpr.hasFallback : FilterExpr → Bool
  | .single f => isFallbackLeaf f
  | .andAll fs => fs.any isFallbackLeaf

def bodyHasFallback : Body → Bool
  | .ranked b =>
    match b.filters with
    | some fe => fe.hasFallback
    | none => false
  | .count b => b.filters.hasFallback

def compileHasFallback (command query : String) : Bool :=
  match compile command query with
  | some b => bodyHasFallback b
  | none => false

/-- Commands compiled with `top_k = 0`, i.e. the COUNT vocabulary. -/
def isCountCommand (command : String) : Bool :=
  match commandTable command with
  | some (0, _) => true
  | _ => false

/-- C5 counterexample: the claim says the fallback filter is added only for
COUNT commands with no selectivity filter and no intersection, but
`compile "COUNT_FILTER_80%" "foo"` — a count command WITH a selectivity
filter — also receives the fallback "any token matches" filter (the code pushes
it whenever `top_k == 0 && !query_is_intersection`, regardless of the
selectivity filter). -/
theorem C5_fallback_with_selectivity_cex :
    compileHasFallback "COUNT_FILTER_80%" "foo" = true ∧
    commandTable "COUNT_FILTER_80%" = some (0, some "80%") ∧
    queryIsIntersection "foo" = false ∧
    "COUNT_FILTER_80%" ≠ "COUNT" := by
  decide

/-- C5 (amended): for every intersection query, `compile "COUNT"` yields the
aggregation body whose filter is the bare intersection triple — no fallback
filter, no And wrapper; and the fallback filter is added exactly to count
commands (with or without selectivity filter) whose query is not an
intersection query. -/
theorem C5_count_intersection_amended (q : String) :
    (queryIsIntersection q = true →
      compile "COUNT" q = some (.count ⟨("count", "Count"),
        .single ⟨"text", "ContainsAllTokens", q⟩, "eventual"⟩)) ∧
    ∀ cmd : String,
      compileHasFallback cmd q = (isCountCommand cmd && !queryIsIntersection q) := by
  constructor
  · intro h
    simp [compile, commandTable, h]
  · intro cmd
    unfold compileHasFallback isCountCommand
    cases h : commandTable cmd with
    | none => simp [compile, h]
    | some kf =>
      obtain ⟨k, f⟩ := kf
      simp only [compile, h]
      cases k with
      | zero =>
        cases hi : queryIsIntersection q <;> cases f <;>
          simp [bodyHasFallback, FilterExpr.hasFallback, isFallbackLeaf, hi]
      | succ m =>
        cases hi : queryIsIntersection q <;> cases f <;>
          simp [bodyHasFallback, FilterExpr.hasFallback, isFallbackLeaf, hi]

/-- Witness for C5 (amended), at the spec's example `compile("COUNT",
"foo+bar")` and at a concrete count command carrying a selectivity filter. -/
theorem C5_count_intersection_amended_witness :
    compile "COUNT" "foo+bar" = some (.count ⟨("count", "Count"),
      .single ⟨"text", "ContainsAllTokens", "foo+bar"⟩, "eventual"⟩) ∧
    compileHasFallback "COUNT_FILTER_20%" "foo" =
      (isCountCommand "COUNT_FILTER_20%" && !queryIsIntersection "foo") :=
  ⟨(C5_count_intersection_amended "foo+bar").1 (by decide),
   (C5_count_intersection_amended "foo").2 "COUNT_FILTER_20%"⟩

/-- The nine `TOP_<k>_FILTER_<pct>%` commands with their top_k and tag. -/
def topFilterTable : List (String × Nat × String) :=
  [("TOP_10_FILTER_80%", 10, "80%"), ("TOP_10_FILTER_20%", 10, "20%"),
   ("TOP_10_FILTER_5%", 10, "5%"), ("TOP_100_FILTER_80%", 100, "80%"),
   ("TOP_100_FILTER_20%", 100, "20%"), ("TOP_100_FILTER_5%", 100, "5%"),
   ("TOP_1000_FILTER_80%", 1000, "80%"), ("TOP_1000_FILTER_20%", 1000, "20%"),
   ("TOP_1000_FILTER_5%", 1000, "5%")]

/-- C6: every `TOP_<k>_FILTER_<pct>%` command on a non-intersection query
compiles to a ranked BM25 body with top_k = k, the single selectivity filter
`["filter", "Contains", "<pct>%"]` used bare (no And wrapper, no intersection
filter), and eventual consistency. -/
theorem C6_top_filter_ranked (q : String) (hq : queryIsIntersection q = false) :
    ∀ cmd k pct, (cmd, k, pct) ∈ topFilterTable →
      compile cmd q = some (.ranked ⟨("text", "BM25", q),
        some (.single ⟨"filter", "Contains", pct⟩), k, "eventual"⟩) := by
  intro cmd k pct hmem
  fin_cases hmem <;> simp [compile, commandTable, hq]

/-- Witness for C6 at the spec's example `compile("TOP_10_FILTER_80%",
"foo")`. -/
theorem C6_top_filter_ranked_witness :
    compile "TOP_10_FILTER_80%" "foo" = some (.ranked ⟨("text", "BM25", "foo"),
      some (.single ⟨"filter", "Contains", "80%"⟩), 10, "eventual"⟩) :=
  C6_top_filter_ranked "foo" (by decide) "TOP_10_FILTER_80%" 10 "80%" (by decide)

/-! ## Query runner and output (do_query.rs lines 84-135, 140-158)

Response types mirror the `Deserialize` structs: `Row` is an empty struct, so
`rows` is a list of units; `aggregations` is a map from aggregate name to
count.  In both branches the code first asserts
`response.performance.exhaustive_search_count == 0` (lines 96, 132) and only
then prints the scalar result (row count at line 134, `aggregations["count"]`
at line 98; a missing "count" key would also abort, via map indexing). -/

structure QueryPerformance where
  exhaustive_search_count : Nat
deriving DecidableEq

structure QueryResponse where
  rows : List Unit
  performance : QueryPerformance
deriving DecidableEq

structure AggregationResponse where
  aggregations : List (String × Nat)
  performance : QueryPerformance
deriving DecidableEq

inductive RunViolation where
  | exhaustiveScan
  | missingCountAggregate
deriving DecidableEq

/-- Lines 132-134: the exhaustiveness assertion, then the row count. -/
def reportRanked (r : QueryResponse) : Except RunViolation Nat :=
  if r.performance.exhaustive_search_count = 0 then .ok r.rows.length
  else .error .exhaustiveScan

/-- Lines 96-98: the exhaustiveness assertion, then the "count" aggregate. -/
def reportCount (r : AggregationResponse) : Except RunViolation Nat :=
  if r.performance.exhaustive_search_count = 0 then
    match r.aggregations.lookup "count" with
    | some c => .ok c
    | none => .error .missingCountAggregate
  else .error .exhaustiveScan

/-- C4: on every ranked outcome with a zero exhaustive-scan count the runner
reports the row count (and on every aggregation outcome the named "count"
aggregate); any non-zero exhaustive-scan count aborts via the assertion,
whatever the result cardinality. -/
theorem C4_exhaustive_scan_invariant (rr : QueryResponse)
    (ar : AggregationResponse) :
    (rr.performance.exhaustive_search_count = 0 →
      reportRanked rr = .ok rr.rows.length) ∧
    (rr.performance.exhaustive_search_count ≠ 0 →
      reportRanked rr = .error .exhaustiveScan) ∧
    (∀ c, ar.performance.exhaustive_search_count = 0 →
      ar.aggregations.lookup "count" = some c → reportCount ar = .ok c) ∧
    (ar.performance.exhaustive_search_count ≠ 0 →
      reportCount ar = .error .exhaustiveScan) := by
  refine ⟨fun h => ?_, fun h => ?_, fun c h hl => ?_, fun h => ?_⟩
  · simp [reportRanked, h]
  · simp [reportRanked, h]
  · simp [reportCount, h, hl]
  · simp [reportCount, h]

/-- Witness for C4 at the spec's example: 37 matching rows with
exhaustive-scan count 0 reports 37; exhaustive-scan count 1 aborts despite the
same 37 rows. -/
theorem C4_exhaustive_scan_invariant_witness :
    reportRanked ⟨List.replicate 37 (), ⟨0⟩⟩ = .ok 37 ∧
    reportRanked ⟨List.replicate 37 (), ⟨1⟩⟩ = .error .exhaustiveScan ∧
    reportCount ⟨[("count", 37)], ⟨0⟩⟩ = .ok 37 ∧
    reportCount ⟨[("count", 37)], ⟨1⟩⟩ = .error .exhaustiveScan := by
  refine ⟨?_, ?_, ?_, ?_⟩
  · have := (C4_exhaustive_scan_invariant ⟨List.replicate 37 (), ⟨0⟩⟩
      ⟨[("count", 37)], ⟨0⟩⟩).1 rfl
    simpa using this
  · exact (C4_exhaustive_scan_invariant ⟨List.replicate 37 (), ⟨1⟩⟩
      ⟨[("count", 37)], ⟨1⟩⟩).2.1 (by decide)
  · exact (C4_exhaustive_scan_invariant ⟨List.replicate 37 (), ⟨0⟩⟩
      ⟨[("count", 37)], ⟨0⟩⟩).2.2.1 37 rfl (by decide)
  · exact (C4_exhaustive_scan_invariant ⟨List.replicate 37 (), ⟨1⟩⟩
      ⟨[("count", 37)], ⟨1⟩⟩).2.2.2 (by decide)

/-! ## The do_query main loop (do_query.rs lines 20-136)

`line.split("\t")` over the characters of the line; the `assert_eq!` on the
field count aborts on any other shape.  Each `println!` is one stdout line:
`Unsupported command: {}` (line 49), the serialized ranked request body (line
119— printed before the request is sent), and the scalar result (lines 98 and
134).  Queries run strictly sequentially: the loop body awaits each request
before reading the next line.  The oracles stand for the service's responses
to the two body shapes. -/

/-- Rust `line.split("\t").collect()`: n separators yield n+1 fields, empty
fields included. -/
def splitTabAux : List Char → List Char → List String
  | [], cur => [String.mk cur.reverse]
  | c :: cs, cur =>
    if c = '\t' then String.mk cur.reverse :: splitTabAux cs []
    else splitTabAux cs (c :: cur)

def splitTab (line : String) : List String := splitTabAux line.data []

/-- One stdout line of the query pipeline. -/
inductive OutLine where
  | unsupported (command : String)
  | bodyEcho (b : RankedBody)
  | result (n : Nat)
deriving DecidableEq

inductive RunAbort where
  | badLineFormat
  | violation (v : RunViolation)
deriving DecidableEq

/-- One iteration of the loop: the produced stdout lines and, when an
assertion fires, the abort that ends the process. -/
def processLine (oR : RankedBody → QueryResponse)
    (oC : CountBody → AggregationResponse) (line : String) :
    List OutLine × Option RunAbort :=
  match splitTab line with
  | [command, query] =>
    match compile command query with
    | none => ([.unsupported command], none)
    | some (.count b) =>
      match reportCount (oC b) with
      | .ok c => ([.result c], none)
      | .error v => ([], some (.violation v))
    | some (.ranked b) =>
      match reportRanked (oR b) with
      | .ok n => ([.bodyEcho b, .result n], none)
      | .error v => ([.bodyEcho b], some (.violation v))
  | _ => ([], some .badLineFormat)

def runQueries (oR : RankedBody → QueryResponse)
    (oC : CountBody → AggregationResponse) :
    List String → List OutLine × Option RunAbort
  | [] => ([], none)
  | line :: rest =>
    match processLine oR oC line with
    | (out, none) =>
      let r := runQueries oR oC rest
      (out ++ r.1, r.2)
    | (out, some e) => (out, some e)

/-- A service oracle answering every ranked query with three rows and no
exhaustive scan, and every count query with count 5 and no exhaustive scan. -/
def oracleRanked3 : RankedBody → QueryResponse := fun _ => ⟨[(), (), ()], ⟨0⟩⟩

def oracleCount5 : CountBody → AggregationResponse := fun _ => ⟨[("count", 5)], ⟨0⟩⟩

/-- C8: claimed — stdout lines correspond one-to-one and in order to the
well-formed, supported input lines.  The code prints the serialized request
body (line 119) before every ranked query's result, so the single supported
input line `TOP_10\tfoo`, answered with three rows and no exhaustive scan,
produces TWO stdout lines: the body echo, then the row count. -/
theorem C8_ranked_query_two_output_lines :
    runQueries oracleRanked3 oracleCount5 ["TOP_10\tfoo"] =
      ([.bodyEcho ⟨("text", "BM25", "foo"), none, 10, "eventual"⟩, .result 3],
        none) ∧
    (runQueries oracleRanked3 oracleCount5 ["TOP_10\tfoo"]).1.length = 2 ∧
    ["TOP_10\tfoo"].length = 1 := by
  refine ⟨?_, by decide, by decide⟩
  decide

/-! ## Index-convergence waiter (build_index.rs lines 103-136)

`wait_for_index` loops: it fetches `/metadata`, and if `index.status` equals
"up-to-date" it returns; otherwise it prints the unindexed byte count
(`unindexed_bytes.unwrap()`) and sleeps `Duration::from_secs(10)` before
polling again — no timeout, no backoff.  The loop is modelled with fuel
(number of polls the model is allowed to observe) over a stream of metadata
responses; non-termination of the source loop is `none` at every fuel. -/

structure IndexStatus where
  status : String
  unindexed_bytes : Option Nat
deriving DecidableEq

structure MetadataResponse where
  index : IndexStatus
deriving DecidableEq

/-- What one loop iteration does after receiving a response (lines 125-134):
return on "up-to-date"; otherwise print `unindexed_bytes.unwrap()` and sleep
10 seconds — where `unwrap()` on an absent byte count aborts the process
instead of polling again. -/
inductive PollAction where
  | finish
  | logAndSleep (bytes : Nat) (sleepSeconds : Nat)
  | abortMissingBytes
deriving DecidableEq

def pollStep (r : MetadataResponse) : PollAction :=
  if r.index.status = "up-to-date" then .finish
  else
    match r.index.unindexed_bytes with
    | some b => .logAndSleep b 10
    | none => .abortMissingBytes

/-- How a run of the polling loop can end: a normal return at the first
"up-to-date" response, or the `unwrap` abort at a non-converged response
without a byte count. -/
inductive WaitResult where
  | converged (k : Nat)
  | aborted (k : Nat)
deriving DecidableEq

/-- The polling loop: `waitForIndex responses fuel k` polls responses
`k, k+1, ...` and returns how the loop ends within `fuel` polls, `none` if it
is still polling after `fuel` polls. -/
def waitForIndex (responses : Nat → MetadataResponse) :
    Nat → Nat → Option WaitResult
  | 0, _ => none
  | fuel + 1, k =>
    match pollStep (responses k) with
    | .finish => some (.converged k)
    | .abortMissingBytes => some (.aborted k)
    | .logAndSleep _ _ => waitForIndex responses fuel (k + 1)

lemma waitForIndex_converged_iff (responses : Nat → MetadataResponse) :
    ∀ (fuel s n : Nat),
      waitForIndex responses fuel s = some (.converged n) ↔
        (s ≤ n ∧ n < s + fuel ∧ (responses n).index.status = "up-to-date" ∧
          ∀ k, s ≤ k → k < n →
            ((responses k).index.status ≠ "up-to-date" ∧
              ((responses k).index.unindexed_bytes).isSome = true)) := by
  intro fuel
  induction fuel with
  | zero =>
    intro s n
    simp only [waitForIndex]
    constructor
    · intro h; exact absurd h (by simp)
    · rintro ⟨h1, h2, _, _⟩; omega
  | succ f ih =>
    intro s n
    rw [waitForIndex]
    by_cases hs : (responses s).index.status = "up-to-date"
    · simp only [pollStep, if_pos hs]
      constructor
      · intro h
        have hn : s = n := by simpa using h
        subst hn
        exact ⟨Nat.le_refl s, by omega, hs, fun k hk1 hk2 => absurd hk1 (by omega)⟩
      · rintro ⟨h1, h2, h3, h4⟩
        have hn : n = s := by
          by_contra hne
          exact (h4 s (Nat.le_refl s) (by omega)).1 hs
        subst hn
        rfl
    · cases hb : (responses s).index.unindexed_bytes with
      | none =>
        simp only [pollStep, if_neg hs, hb]
        constructor
        · intro h; exact absurd h (by simp)
        · rintro ⟨h1, h2, h3, h4⟩
          exfalso
          by_cases hsn : s = n
          · exact hs (hsn ▸ h3)
          · have := (h4 s (Nat.le_refl s) (by omega)).2
            rw [hb] at this
            exact absurd this (by simp)
      | some b =>
        simp only [pollStep, if_neg hs, hb]
        rw [ih (s + 1) n]
        constructor
        · rintro ⟨h1, h2, h3, h4⟩
          refine ⟨by omega, by omega, h3, fun k hk1 hk2 => ?_⟩
          rcases Nat.eq_or_lt_of_le hk1 with heq | hlt
          · subst heq; exact ⟨hs, by rw [hb]; rfl⟩
          · exact h4 k hlt hk2
        · rintro ⟨h1, h2, h3, h4⟩
          have hne : n ≠ s := fun e => hs (e ▸ h3)
          exact ⟨by omega, by omega, h3, fun k hk1 hk2 => h4 k (by omega) hk2⟩

lemma waitForIndex_none_all (responses : Nat → MetadataResponse)
    (hall : ∀ k, (responses k).index.status ≠ "up-to-date" ∧
      ((responses k).index.unindexed_bytes).isSome = true) :
    ∀ (fuel s : Nat), waitForIndex responses fuel s = none := by
  intro fuel
  induction fuel with
  | zero => intro s; rfl
  | succ f ih =>
    intro s
    obtain ⟨h1, h2⟩ := hall s
    rw [waitForIndex]
    cases hb : (responses s).index.unindexed_bytes with
    | none => rw [hb] at h2; exact absurd h2 (by simp)
    | some b =>
      simp only [pollStep, if_neg h1, hb]
      exact ih (s + 1)

/-- A response stream that never converges and never carries a byte count. -/
def respStuckNoBytes : Nat → MetadataResponse := fun _ => ⟨⟨"indexing", none⟩⟩

/-- C7 counterexample: the claim says that on every response other than
"up-to-date" the loop logs the unindexed byte count, sleeps 10 seconds and
polls again, and that the loop terminates only on an "up-to-date" response.
On a non-converged response whose optional `unindexed_bytes` field is absent,
`unindexed_bytes.unwrap()` (line 131) aborts the run instead: the loop ends at
its very first poll although no response ever reports "up-to-date". -/
theorem C7_abort_on_missing_bytes_cex :
    pollStep ⟨⟨"indexing", none⟩⟩ = .abortMissingBytes ∧
    (⟨⟨"indexing", none⟩⟩ : MetadataResponse).index.status ≠ "up-to-date" ∧
    waitForIndex respStuckNoBytes 5 0 = some (.aborted 0) := by
  decide

/-- C7 (amended): the waiter's loop returns normally exactly at the first
"up-to-date" response, provided every earlier response carried a byte count;
a non-converged response that does carry a byte count makes it log that count
and sleep a fixed 10 seconds before polling again; a non-converged response
without a byte count aborts the run via the `unwrap`; and when every response
is non-converged with a byte count the loop polls forever — no fuel bound
makes it return (no timeout, unbounded by default). -/
theorem C7_wait_for_index_amended (responses : Nat → MetadataResponse)
    (fuel n : Nat) :
    (waitForIndex responses fuel 0 = some (.converged n) ↔
      (n < fuel ∧ (responses n).index.status = "up-to-date" ∧
        ∀ k, k < n → ((responses k).index.status ≠ "up-to-date" ∧
          ((responses k).index.unindexed_bytes).isSome = true))) ∧
    (∀ (r : MetadataResponse) (b : Nat), r.index.status ≠ "up-to-date" →
      r.index.unindexed_bytes = some b → pollStep r = .logAndSleep b 10) ∧
    (∀ r : MetadataResponse, r.index.status ≠ "up-to-date" →
      r.index.unindexed_bytes = none → pollStep r = .abortMissingBytes) ∧
    ((∀ k, (responses k).index.status ≠ "up-to-date" ∧
        ((responses k).index.unindexed_bytes).isSome = true) →
      waitForIndex responses fuel 0 = none) := by
  refine ⟨?_, ?_, ?_, ?_⟩
  · rw [waitForIndex_converged_iff]
    constructor
    · rintro ⟨_, h2, h3, h4⟩
      exact ⟨by omega, h3, fun k hk => h4 k (Nat.zero_le k) hk⟩
    · rintro ⟨h1, h2, h3⟩
      exact ⟨Nat.zero_le n, by omega, h2, fun k _ hk => h3 k hk⟩
  · intro r b hr hb; simp [pollStep, hr, hb]
  · intro r hr hb; simp [pollStep, hr, hb]
  · intro hall
    exact waitForIndex_none_all responses hall fuel 0

/-- A response stream that converges at the third poll. -/
def respConvergeAt2 : Nat → MetadataResponse := fun n =>
  if n = 2 then ⟨⟨"up-to-date", none⟩⟩ else ⟨⟨"indexing", some 5⟩⟩

/-- A response stream that never converges but always carries a byte count. -/
def respStuck : Nat → MetadataResponse := fun _ => ⟨⟨"indexing", some 5⟩⟩

/-- Witness for C7 (amended): normal termination at the first "up-to-date"
response, the log-and-sleep action on a non-converged response with a byte
count, the abort on one without, and non-termination on a never-converging
stream with byte counts. -/
theorem C7_wait_for_index_amended_witness :
    waitForIndex respConvergeAt2 10 0 = some (.converged 2) ∧
    pollStep ⟨⟨"indexing", some 5⟩⟩ = .logAndSleep 5 10 ∧
    pollStep ⟨⟨"indexing", none⟩⟩ = .abortMissingBytes ∧
    waitForIndex respStuck 7 0 = none := by
  refine ⟨?_, ?_, ?_, ?_⟩
  · exact (C7_wait_for_index_amended respConvergeAt2 10 2).1.mpr
      ⟨by decide, by decide, by decide⟩
  · exact (C7_wait_for_index_amended respStuck 1 0).2.1
      ⟨⟨"indexing", some 5⟩⟩ 5 (by decide) rfl
  · exact (C7_wait_for_index_amended respStuck 1 0).2.2.1
      ⟨⟨"indexing", none⟩⟩ (by decide) rfl
  · exact (C7_wait_for_index_amended respStuck 7 0).2.2.2
      (fun k => ⟨by show ("indexing" : String) ≠ "up-to-date"; decide,
        by show (some 5).isSome = true; rfl⟩)

/-! ## API-key configuration (build_index.rs lines 10-12, do_query.rs lines
8-10)

`const API_KEY: LazyLock<String> = LazyLock::new(|| std::env::var(
"TURBOPUFFER_API_KEY").expect(...))`.  Because the item is a `const` (not a
`static`), every use site instantiates a fresh `LazyLock` cell, so every
`API_KEY.as_str()` re-runs the closure and re-reads the environment variable;
a missing variable makes `expect` abort the process at the first access.
build_index evaluates `API_KEY.as_str()` once inside `delete_namespace` (line
65, awaited before the stdin loop), once per `write_batch` call (line 77) and
once per `wait_for_index` poll (line 119); do_query evaluates it exactly once
(line 18), before its input loop. -/

inductive StartupAbort where
  | missingApiKey
deriving DecidableEq

/-- One evaluation of the `LazyLock` closure: `std::env::var(...).expect`. -/
def apiKeyRead (env : Option String) : Except StartupAbort String :=
  match env with
  | some k => .ok k
  | none => .error .missingApiKey

/-- build_index main: `delete_namespace()` is awaited before the stdin loop
and forces the key for its Authorization header, so a missing variable aborts
before any input line is consumed or any batch dispatched. -/
def buildIndexMain (env : Option String) (parse : String → Option Json)
    (lines : List String) :
    Except StartupAbort (Except String (List (List Json) × List Json)) :=
  match apiKeyRead env with
  | .error e => .error e
  | .ok _ => .ok (ingest parse BATCH_SIZE lines)

/-- do_query main: the Authorization header is built from the key at line 18,
before the input loop. -/
def doQueryMain (env : Option String) (oR : RankedBody → QueryResponse)
    (oC : CountBody → AggregationResponse) (lines : List String) :
    Except StartupAbort (List OutLine × Option RunAbort) :=
  match apiKeyRead env with
  | .error e => .error e
  | .ok _ => .ok (runQueries oR oC lines)

/-- One HTTP request of build_index.  Each request builder evaluates
`API_KEY.as_str()` exactly once for its Authorization header
(delete_namespace at line 65, write_batch at line 77, the metadata poll at
line 119); since `API_KEY` is a `const LazyLock`, each evaluation
instantiates a fresh cell and re-reads the environment variable. -/
inductive BuildOp where
  | deleteNamespace
  | writeBatch (batch : List Json)
  | metadataPoll

/-- The metadata requests wait_for_index issues: one per loop iteration
(including the final converging or aborting one), observed up to `fuel`
iterations — in step with `waitForIndex`. -/
def pollOps (responses : Nat → MetadataResponse) : Nat → Nat → List BuildOp
  | 0, _ => []
  | fuel + 1, k =>
    match pollStep (responses k) with
    | .finish => [.metadataPoll]
    | .abortMissingBytes => [.metadataPoll]
    | .logAndSleep _ _ => .metadataPoll :: pollOps responses fuel (k + 1)

/-- The HTTP requests of a build_index run whose ingestion completes and
whose uploads all succeed, in dispatch order: the `delete_namespace` awaited
before the stdin loop, one `write_batch` per dispatched batch, then the
metadata polls.  `none` when a parse error aborts the stdin loop. -/
def buildIndexOps (parse : String → Option Json) (lines : List String)
    (responses : Nat → MetadataResponse) (fuel : Nat) :
    Option (List BuildOp) :=
  match ingest parse BATCH_SIZE lines with
  | .error _ => none
  | .ok (batches, _) =>
    some (.deleteNamespace ::
      (batches.map BuildOp.writeBatch ++ pollOps responses fuel 0))

/-- Environment reads one request forces: one per request, by the `const
LazyLock` semantics above. -/
def buildOpEnvReads : BuildOp → Nat
  | .deleteNamespace => 1
  | .writeBatch _ => 1
  | .metadataPoll => 1

/-- Environment reads of a completed build_index run, derived from its
request sequence. -/
def buildIndexEnvReadsOf (parse : String → Option Json) (lines : List String)
    (responses : Nat → MetadataResponse) (fuel : Nat) : Option Nat :=
  (buildIndexOps parse lines responses fuel).map
    (fun ops => (ops.map buildOpEnvReads).sum)

/-- The key-relevant steps of do_query: the Authorization header is built
from `API_KEY.as_str()` once at line 18, before the input loop; every query
request then reuses the prebuilt `&authorization_header` string and evaluates
the key zero further times. -/
inductive QueryOp where
  | buildAuthHeader
  | postQuery (b : Body)

/-- The request bodies do_query posts, one per supported well-formed line in
input order, stopping after a failed assertion. -/
def postedBodies (oR : RankedBody → QueryResponse)
    (oC : CountBody → AggregationResponse) : List String → List Body
  | [] => []
  | line :: rest =>
    match splitTab line with
    | [command, query] =>
      match compile command query with
      | none => postedBodies oR oC rest
      | some (.count b) =>
        Body.count b ::
          (match reportCount (oC b) with
           | .ok _ => postedBodies oR oC rest
           | .error _ => [])
      | some (.ranked b) =>
        Body.ranked b ::
          (match reportRanked (oR b) with
           | .ok _ => postedBodies oR oC rest
           | .error _ => [])
    | _ => []

def doQueryOps (oR : RankedBody → QueryResponse)
    (oC : CountBody → AggregationResponse) (lines : List String) :
    List QueryOp :=
  .buildAuthHeader :: (postedBodies oR oC lines).map QueryOp.postQuery

def queryOpEnvReads : QueryOp → Nat
  | .buildAuthHeader => 1
  | .postQuery _ => 0

/-- Environment reads of a do_query run, derived from its step sequence. -/
def doQueryEnvReadsOf (oR : RankedBody → QueryResponse)
    (oC : CountBody → AggregationResponse) (lines : List String) : Nat :=
  ((doQueryOps oR oC lines).map queryOpEnvReads).sum

lemma sum_buildOpEnvReads :
    ∀ ops : List BuildOp, (ops.map buildOpEnvReads).sum = ops.length := by
  intro ops
  induction ops with
  | nil => rfl
  | cons op rest ih => cases op <;> simp [buildOpEnvReads, ih, Nat.add_comm]

lemma pollOps_length_pos (responses : Nat → MetadataResponse)
    (fuel k : Nat) : 1 ≤ (pollOps responses (fuel + 1) k).length := by
  rw [pollOps]
  cases pollStep (responses k) <;> simp

/-- A response stream whose first poll already reports convergence. -/
def respDone : Nat → MetadataResponse := fun _ => ⟨⟨"up-to-date", none⟩⟩

/-- C9 counterexample: the claim says the token is read exactly once at
process start.  Even the minimal completed build_index run — empty input, so
no batch, and a first metadata poll that already reports "up-to-date" —
issues two HTTP requests (the namespace delete and one poll), and each
request's Authorization header re-reads TURBOPUFFER_API_KEY: two reads, not
one. -/
theorem C9_env_reread_cex :
    buildIndexEnvReadsOf parseAsStr [] respDone 1 = some 2 ∧ 2 ≠ 1 := by
  refine ⟨rfl, by decide⟩

/-- C9 (amended): do_query reads the token exactly once, before its input
loop, whatever the input; build_index re-reads it at every HTTP request —
over a completed run, once for the namespace delete, once per dispatched
batch and once per metadata poll, hence at least twice; and in both binaries
a run started without the variable aborts at the first access, before any
input is processed, whatever the input. -/
theorem C9_env_key_amended :
    (∀ (parse : String → Option Json) (lines : List String),
      buildIndexMain none parse lines = .error .missingApiKey) ∧
    (∀ (oR : RankedBody → QueryResponse) (oC : CountBody → AggregationResponse)
      (lines : List String),
      doQueryMain none oR oC lines = .error .missingApiKey) ∧
    (∀ (oR : RankedBody → QueryResponse) (oC : CountBody → AggregationResponse)
      (lines : List String),
      doQueryEnvReadsOf oR oC lines = 1) ∧
    (∀ (parse : String → Option Json) (lines : List String)
      (responses : Nat → MetadataResponse) (fuel : Nat)
      (batches : List (List Json)) (leftover : List Json),
      ingest parse BATCH_SIZE lines = .ok (batches, leftover) →
      buildIndexEnvReadsOf parse lines responses fuel =
        some (1 + batches.length + (pollOps responses fuel 0).length)) ∧
    (∀ (responses : Nat → MetadataResponse) (fuel k : Nat),
      1 ≤ (pollOps responses (fuel + 1) k).length) := by
  refine ⟨fun _ _ => rfl, fun _ _ _ => rfl, ?_, ?_, pollOps_length_pos⟩
  · intro oR oC lines
    unfold doQueryEnvReadsOf doQueryOps
    simp only [List.map_cons, List.sum_cons, List.map_map]
    have hz : ∀ bs : List Body,
        (bs.map (queryOpEnvReads ∘ QueryOp.postQuery)).sum = 0 := by
      intro bs
      induction bs with
      | nil => rfl
      | cons b rest ih => simp [queryOpEnvReads, Function.comp, ih]
    rw [hz]
    rfl
  · intro parse lines responses fuel batches leftover h
    unfold buildIndexEnvReadsOf buildIndexOps
    rw [h]
    simp only [Option.map_some', Option.some.injEq, sum_buildOpEnvReads]
    simp only [List.length_cons, List.length_append, List.length_map]
    omega

/-- Witness for C9 (amended): the missing-variable aborts on concrete inputs,
the single do_query read on a concrete query line, and the derived read count
of the minimal completed build_index run (no batch, one poll). -/
theorem C9_env_key_amended_witness :
    buildIndexMain none parseAsStr ["doc"] = .error .missingApiKey ∧
    doQueryMain none oracleRanked3 oracleCount5 ["TOP_10\tfoo"] =
      .error .missingApiKey ∧
    doQueryEnvReadsOf oracleRanked3 oracleCount5 ["TOP_10\tfoo"] = 1 ∧
    buildIndexEnvReadsOf parseAsStr [] respDone 1 =
      some (1 + ([] : List (List Json)).length + (pollOps respDone 1 0).length) ∧
    1 ≤ (pollOps respDone 1 0).length :=
  ⟨C9_env_key_amended.1 parseAsStr ["doc"],
   C9_env_key_amended.2.1 oracleRanked3 oracleCount5 ["TOP_10\tfoo"],
   C9_env_key_amended.2.2.1 oracleRanked3 oracleCount5 ["TOP_10\tfoo"],
   C9_env_key_amended.2.2.2.1 parseAsStr [] respDone 1 [] [] rfl,
   C9_env_key_amended.2.2.2.2 respDone 0 0⟩

end SearchBenchmarkGame
